import Mathlib

/-!
Shallow embedding of the netcheck report-generator actor
(`src/iroh-net/src/hp/netcheck/reportgen.rs`) and proofs about it.

The actor state and its pure transition functions are translated from the
source.  Concurrency (tokio select loop, channels, timers) is embedded by
making each select-arm / message an explicit operation on the actor state,
and by reporting side effects (spawned abort-probes timers, hairpin
`start_check` invocations, STUN packets sent) as explicit output values.
Durations are modelled as natural numbers (an abstract unit such as
milliseconds).
-/

namespace Iroh

/-- Fake DNS TLD used in tests for an invalid hostname (`DOT_INVALID` in
the source). -/
def DOT_INVALID : String := ".invalid"

/-- Number of regions after which the abort-probes timer is considered
(`ENOUGH_REGIONS` in the source). -/
def ENOUGH_REGIONS : Nat := 3

/-- A transport address, as used for the observed STUN addresses.  The Rust
`SocketAddr` is an IPv4 or IPv6 address plus port; the numeric payloads are
abstracted to naturals, which preserves decidable equality and the
V4/V6 family distinction, which is all the source inspects. -/
inductive SocketAddr where
  | v4 (ip : Nat) (port : Nat)
  | v6 (ip : Nat) (port : Nat)

deriving instance DecidableEq, Repr for SocketAddr

/-- Modelled from the spec: the per-region latency map of the report
(`RegionLatencies` lives in the parent netcheck module, not in `src/`).
Spec: map region-id → shortest observed latency; keys unique; `update`
keeps the smaller of the existing and new latency; `max_latency` is the
maximum across known regions. -/
structure RegionLatencies where
  entries : List (Nat × Nat)

deriving instance DecidableEq, Repr for RegionLatencies

/-- Update the underlying association list: insert the latency for the
region, keeping the minimum when the region is already present. -/
def updateEntries : List (Nat × Nat) → Nat → Nat → List (Nat × Nat)
  | [], r, l => [(r, l)]
  | (r0, l0) :: rest, r, l =>
      if r0 = r then (r0, min l0 l) :: rest
      else (r0, l0) :: updateEntries rest r l

/-- Source `RegionLatencies::update_region`. -/
def RegionLatencies.update_region (m : RegionLatencies) (r lat : Nat) : RegionLatencies :=
  ⟨updateEntries m.entries r lat⟩

/-- Source `RegionLatencies::get`. -/
def RegionLatencies.get (m : RegionLatencies) (r : Nat) : Option Nat :=
  m.entries.lookup r

/-- Number of regions with a recorded latency (`len`). -/
def RegionLatencies.len (m : RegionLatencies) : Nat :=
  m.entries.length

/-- Whether no region has a recorded latency (`is_empty`). -/
def RegionLatencies.is_empty (m : RegionLatencies) : Bool :=
  m.entries.isEmpty

/-- Maximum latency across the known regions (`max_latency`). -/
def RegionLatencies.max_latency (m : RegionLatencies) : Nat :=
  m.entries.foldl (fun acc p => max acc p.2) 0

/-- The empty latency map. -/
def RegionLatencies.empty : RegionLatencies := ⟨[]⟩

/-- Modelled from the spec: a relay (DERP) node; `DerpNode` lives in the
`hp::derp` module, not in `src/`.  Only the fields the report generator
reads are modelled: the node name, its region id, and its URL host
(`url.host_str()`, `none` when the URL has no host). -/
structure DerpNode where
  name : String
  regionId : Nat
  urlHost : Option String

deriving instance DecidableEq, Repr for DerpNode

/-- Modelled from the spec: a relay (DERP) region: id, the `avoid` flag and
its nodes. -/
structure DerpRegion where
  regionId : Nat
  avoid : Bool
  nodes : List DerpNode

deriving instance DecidableEq, Repr for DerpRegion

/-- Modelled from the spec: the relay map, a finite map region-id → region
(a `BTreeMap` in the source, embedded as an association list in key
order). -/
structure DerpMap where
  regions : List (Nat × DerpRegion)

deriving instance DecidableEq, Repr for DerpMap

/-- Source `dm.regions.get(&id)`. -/
def DerpMap.getRegion (dm : DerpMap) (id : Nat) : Option DerpRegion :=
  dm.regions.lookup id

/-- Source `DerpMap::find_by_name`: find a node with the given name anywhere in
the map. -/
def DerpMap.find_by_name (dm : DerpMap) (n : String) : Option DerpNode :=
  (dm.regions.flatMap (fun p => p.2.nodes)).find? (fun node => node.name = n)

/-- The probe protocol (`ProbeProto` in the probe module). -/
inductive ProbeProto where
  | Ipv4
  | Ipv6
  | Https

deriving instance DecidableEq, Repr for ProbeProto

/-- Modelled from the spec: a probe (`Probe` lives in the probe module, not
in `src/`).  Tagged variant; common attributes are the start delay and,
for STUN probes, the destination node name; for HTTPS, the destination
region (only its id is inspected by the report generator). -/
inductive Probe where
  | ipv4 (delay : Nat) (node : String)
  | ipv6 (delay : Nat) (node : String)
  | https (delay : Nat) (regionId : Nat)

deriving instance DecidableEq, Repr for Probe

/-- Source `Probe::proto`. -/
def Probe.proto : Probe → ProbeProto
  | .ipv4 _ _ => ProbeProto.Ipv4
  | .ipv6 _ _ => ProbeProto.Ipv6
  | .https _ _ => ProbeProto.Https

/-- Source `Probe::delay`. -/
def Probe.delay : Probe → Nat
  | .ipv4 d _ => d
  | .ipv6 d _ => d
  | .https d _ => d

/-- Modelled from the spec: the outcome of the port-mapper probe
(`portmapper::ProbeOutput`, outside `src/`); the report generator treats
it as an object it only stores, so it is embedded as a unit value. -/
structure PortmapOutcome where
  unused : Unit

deriving instance DecidableEq, Repr for PortmapOutcome

/-- Modelled from the spec: the `Report` struct (declared in the parent
netcheck module, not in `src/`); fields as per the spec's data-model
table. -/
structure Report where
  udp : Bool
  ipv4 : Bool
  ipv6 : Bool
  ipv4_can_send : Bool
  ipv6_can_send : Bool
  icmpv4 : Bool
  os_has_ipv6 : Bool
  mapping_varies_by_dest_ip : Option Bool
  hair_pinning : Option Bool
  global_v4 : Option SocketAddr
  global_v6 : Option SocketAddr
  region_latency : RegionLatencies
  region_v4_latency : RegionLatencies
  region_v6_latency : RegionLatencies
  captive_portal : Option Bool
  portmap_probe : Option PortmapOutcome
  preferred_derp : Nat

deriving instance DecidableEq, Repr for Report

/-- Source `Report::default()`. -/
def Report.default : Report where
  udp := false
  ipv4 := false
  ipv6 := false
  ipv4_can_send := false
  ipv6_can_send := false
  icmpv4 := false
  os_has_ipv6 := false
  mapping_varies_by_dest_ip := none
  hair_pinning := none
  global_v4 := none
  global_v6 := none
  region_latency := RegionLatencies.empty
  region_v4_latency := RegionLatencies.empty
  region_v6_latency := RegionLatencies.empty
  captive_portal := none
  portmap_probe := none
  preferred_derp := 0

/-- Source `OutstandingTasks`: the four booleans the actor is still waiting on. -/
structure OutstandingTasks where
  probes : Bool
  port_mapper : Bool
  captive_task : Bool
  hairpin : Bool

deriving instance DecidableEq, Repr for OutstandingTasks

/-- Source `OutstandingTasks::default()`. -/
def OutstandingTasks.default : OutstandingTasks where
  probes := false
  port_mapper := false
  captive_task := false
  hairpin := false

/-- Source `OutstandingTasks::all_done`. -/
def OutstandingTasks.all_done (t : OutstandingTasks) : Bool :=
  !(t.probes || t.port_mapper || t.captive_task || t.hairpin)

/-- Source `ProbeReport`: the success result of `run_probe`. -/
structure ProbeReport where
  ipv4_can_send : Bool
  ipv6_can_send : Bool
  icmpv4 : Bool
  delay : Option Nat
  probe : Probe
  addr : Option SocketAddr

deriving instance DecidableEq, Repr for ProbeReport

/-- Source `ProbeReport::new`. -/
def ProbeReport.new (probe : Probe) : ProbeReport where
  probe := probe
  ipv4_can_send := false
  ipv6_can_send := false
  icmpv4 := false
  delay := none
  addr := none

/-- The mutable state of the report-generator `Actor` (channels, sockets
and child handles are embedded as explicit operations and effects
instead). -/
structure Actor where
  report : Report
  outstanding_tasks : OutstandingTasks
  incremental : Bool
  derp_map : DerpMap

deriving instance DecidableEq, Repr for Actor

/-- The `global_v4` / `mapping_varies_by_dest_ip` decision chain of the
`SocketAddr::V4` branch of `add_stun_addr_latency`: the first observed
IPv4 address wins; a later differing address marks the NAT mapping as
varying by destination; a later equal address decides the mapping as not
varying when it was still undecided. -/
def v4_global_update (r : Report) (addr : SocketAddr) : Report :=
  if r.global_v4 = none then
    { r with global_v4 := some addr }
  else if r.global_v4 ≠ some addr then
    { r with mapping_varies_by_dest_ip := some true }
  else if r.mapping_varies_by_dest_ip = none then
    { r with mapping_varies_by_dest_ip := some false }
  else r

/-- Source `Actor::add_stun_addr_latency`: updates the report with a node's
latency and discovered address from STUN.  The second component of the
result records the duration of the abort-probes timer when one is spawned
(`tokio::spawn` of a sleep followed by a self-`AbortProbes` message),
`none` when no timer task is spawned by this call. -/
def Actor.add_stun_addr_latency (a : Actor) (derp_node : String)
    (ipp : Option SocketAddr) (latency : Nat) : Actor × Option Nat :=
  match a.derp_map.find_by_name derp_node with
  | none => (a, none)
  | some node =>
    let report0 : Report :=
      { a.report with
        udp := true
        region_latency := a.report.region_latency.update_region node.regionId latency }
    -- Once we have heard from ENOUGH_REGIONS (3) regions, spawn the
    -- abort-probes timer: duration is the slowest known region, doubled
    -- for a full (non-incremental) report.
    let timer : Option Nat :=
      if report0.region_latency.len = ENOUGH_REGIONS then
        some (if a.incremental then report0.region_latency.max_latency
              else report0.region_latency.max_latency * 2)
      else none
    let report1 : Report :=
      match ipp with
      | none => report0
      | some addr =>
        match addr with
        | SocketAddr.v4 _ _ =>
          v4_global_update
            { report0 with
              region_v4_latency := report0.region_v4_latency.update_region node.regionId latency
              ipv4 := true }
            addr
        | SocketAddr.v6 _ _ =>
          { report0 with
            region_v6_latency := report0.region_v6_latency.update_region node.regionId latency
            ipv6 := true
            global_v6 := some addr }
    ({ a with report := report1 }, timer)

/-- The observable outcome of one `handle_probe_report` call: the new actor
state, the duration of the abort-probes timer if one was spawned, and the
argument of the hairpin actor's `start_check` call if one was issued. -/
structure StepOut where
  actor : Actor
  timer : Option Nat
  hairpinCheck : Option SocketAddr

deriving instance DecidableEq, Repr for StepOut

/-- Source `Actor::handle_probe_report`: folds one probe outcome into the
report. -/
def Actor.handle_probe_report (a : Actor) (probe_report : ProbeReport) : StepOut :=
  let folded : Actor × Option Nat × Option SocketAddr :=
    match probe_report.probe with
    | Probe.https _ regionId =>
      match probe_report.delay with
      | some delay =>
        ({ a with report :=
            { a.report with
              region_latency := a.report.region_latency.update_region regionId delay } },
         none, none)
      | none => (a, none, none)
    | Probe.ipv4 _ node | Probe.ipv6 _ node =>
      match probe_report.delay with
      | some delay =>
        let res := a.add_stun_addr_latency node probe_report.addr delay
        let a1 := res.1
        -- Only needed for the first IPv4 address discovered, but the
        -- hairpin actor ignores subsequent messages.
        match a1.report.global_v4 with
        | some addr =>
          ({ a1 with outstanding_tasks := { a1.outstanding_tasks with hairpin := true } },
           res.2, some addr)
        | none => (a1, res.2, none)
      | none => (a, none, none)
  let a2 := folded.1
  { actor :=
      { a2 with report :=
          { a2.report with
            ipv4_can_send := probe_report.ipv4_can_send
            ipv6_can_send := probe_report.ipv6_can_send
            icmpv4 := probe_report.icmpv4 } }
    timer := folded.2.1
    hairpinCheck := folded.2.2 }

/-- Source `Actor::probe_would_help`: whether running this probe would still
improve the report. -/
def Actor.probe_would_help (a : Actor) (probe : Probe) (derp_node : DerpNode) : Bool :=
  -- If the probe is for a region we don't yet know about, that would help.
  if (a.report.region_latency.get derp_node.regionId).isNone then
    true
  -- If the probe is for IPv6 and we don't yet have an IPv6 report, that
  -- would help.
  else if probe.proto = ProbeProto.Ipv6 && a.report.region_v6_latency.is_empty then
    true
  -- For IPv4 we need two results to decide mapping_varies_by_dest_ip.
  else if probe.proto = ProbeProto.Ipv4 && a.report.mapping_varies_by_dest_ip.isNone then
    true
  else
    false

/-- Source `Actor::handle_abort_probes`: stops further probes, and cancels the
captive-portal task if there were successful probes. -/
def Actor.handle_abort_probes (a : Actor) : Actor :=
  let t0 : OutstandingTasks := { a.outstanding_tasks with probes := false }
  let t1 : OutstandingTasks :=
    if a.report.udp then { t0 with captive_task := false } else t0
  { a with outstanding_tasks := t1 }

/-- Messages to the reportgen actor (`Message` in the source).  The reply
channel of `ProbeWouldHelp` is abstracted away: the reply value is the
pure result of `probe_would_help` and sending it does not change the
actor state. -/
inductive Message where
  | hairpinResult (works : Bool)
  | probeWouldHelp (probe : Probe) (node : DerpNode)
  | abortProbes

deriving instance DecidableEq, Repr for Message

/-- Source `Actor::handle_message`. -/
def Actor.handle_message (a : Actor) (msg : Message) : Actor :=
  match msg with
  | Message.hairpinResult works =>
    { a with
      report := { a.report with hair_pinning := some works }
      outstanding_tasks := { a.outstanding_tasks with hairpin := false } }
  | Message.probeWouldHelp _ _ =>
    -- The branch computes `probe_would_help` and sends it on the reply
    -- channel; the actor state is unchanged.
    a
  | Message.abortProbes => a.handle_abort_probes

/-- One state-mutating operation of the actor's select loop (`run_inner`):
a probe-set report, a failed probe set (ignored), exhaustion of the
probe-set stream, the STUN probe timer, resolution of the port-mapper or
captive-portal future, or an incoming message. -/
inductive ActorOp where
  | probeReport (pr : ProbeReport)
  | probeSetFailed
  | probesExhausted
  | probeTimer
  | portMapperDone (res : Option PortmapOutcome)
  | captiveDone (res : Option Bool)
  | msg (m : Message)

deriving instance DecidableEq, Repr for ActorOp

/-- The actor's state transition for each select-loop operation. -/
def Actor.step (a : Actor) : ActorOp → Actor
  | ActorOp.probeReport pr => (a.handle_probe_report pr).actor
  | ActorOp.probeSetFailed => a
  | ActorOp.probesExhausted => a.handle_abort_probes
  | ActorOp.probeTimer => a.handle_abort_probes
  | ActorOp.portMapperDone res =>
    { a with
      report := { a.report with portmap_probe := res }
      outstanding_tasks := { a.outstanding_tasks with port_mapper := false } }
  | ActorOp.captiveDone res =>
    { a with
      report := { a.report with captive_portal := res }
      outstanding_tasks := { a.outstanding_tasks with captive_task := false } }
  | ActorOp.msg m => a.handle_message m

/-- One probe's outcome as seen by the probe-set loop inside
`prepare_probes_task`: `Ok(report)`, `Err(ProbeError::Error(..))` or
`Err(ProbeError::AbortSet(..))` (the `anyhow::Error` and `Probe` payloads
of the error variants are only logged and are not modelled). -/
inductive ProbeResult where
  | ok (r : ProbeReport)
  | error
  | abortSet

deriving instance DecidableEq, Repr for ProbeResult

/-- The value a probe-set future resolves with. -/
inductive SetOutcome where
  | report (r : ProbeReport)
  | abortErr
  | allFailed

deriving instance DecidableEq, Repr for SetOutcome

/-- The probe-set loop of `prepare_probes_task`, applied to the sequence of
probe results in the order the set's `FuturesUnordered` completes them:
return the first `Ok` report, skip `Error` results, terminate immediately
on `AbortSet`, and fail with `All probes in ProbeSet failed` when the
results are exhausted. -/
def runProbeSet : List ProbeResult → SetOutcome
  | [] => SetOutcome.allFailed
  | ProbeResult.ok r :: _ => SetOutcome.report r
  | ProbeResult.error :: rest => runProbeSet rest
  | ProbeResult.abortSet :: _ => SetOutcome.abortErr

/-- Outcome of the ICMP measurement inside the HTTPS probe branch:
`timeout(ICMP_PROBE_TIMEOUT, measure_icmp_latency(..))`. -/
inductive IcmpOutcome where
  | ok (d : Nat)
  | failed
  | timedOut

deriving instance DecidableEq, Repr for IcmpOutcome

/-- The `run_probe` error kinds (`ProbeError` in the source, payloads
dropped). -/
inductive ProbeErrKind where
  | abortSet
  | error

deriving instance DecidableEq, Repr for ProbeErrKind

/-- The environment `run_probe` interacts with, resolved ahead of time:
channel send/receive successes, the `ProbeWouldHelp` reply, the
`get_derp_addr` result (a netcheck-module function outside `src/`,
abstracted as an input), socket presence, the UDP send outcome
(`n.is_ok() && n == req.len()`), the STUN reply channel and the ICMP
pinger outcome (`none` = no pinger). -/
structure RunProbeEnv where
  wouldHelpSendOk : Bool
  wouldHelpReply : Option Bool
  derpAddr : Option SocketAddr
  inflightSendOk : Bool
  inflightReadyOk : Bool
  sock4 : Bool
  sock6 : Bool
  sendOk : Bool
  stunReply : Option (Nat × SocketAddr)
  pinger : Option IcmpOutcome

deriving instance DecidableEq, Repr for RunProbeEnv

/-- Source `run_probe`: executes a single probe against the pre-resolved
environment.  The second component counts the STUN packets sent
(`sock.send_to` calls).  `measure_https_latency` always fails (`bail!("not
implemented")` in the source), so the HTTPS branch never sets fields from
it. -/
def run_probe (env : RunProbeEnv) (probe : Probe) :
    Except ProbeErrKind ProbeReport × Nat :=
  if env.wouldHelpSendOk = false then (Except.error ProbeErrKind.abortSet, 0)
  else
    match env.wouldHelpReply with
    | none => (Except.error ProbeErrKind.abortSet, 0)
    | some false => (Except.error ProbeErrKind.abortSet, 0)
    | some true =>
      match env.derpAddr with
      | none => (Except.error ProbeErrKind.abortSet, 0)
      | some _ =>
        if env.inflightSendOk = false then (Except.error ProbeErrKind.error, 0)
        else if env.inflightReadyOk = false then (Except.error ProbeErrKind.error, 0)
        else
          let result := ProbeReport.new probe
          match probe with
          | Probe.ipv4 _ _ =>
            if env.sock4 then
              if env.sendOk then
                match env.stunReply with
                | none => (Except.error ProbeErrKind.error, 1)
                | some (delay, addr) =>
                  (Except.ok { result with
                      ipv4_can_send := true
                      delay := some delay
                      addr := some addr }, 1)
              else (Except.ok result, 1)
            else (Except.ok result, 0)
          | Probe.ipv6 _ _ =>
            if env.sock6 then
              if env.sendOk then
                match env.stunReply with
                | none => (Except.error ProbeErrKind.error, 1)
                | some (delay, addr) =>
                  (Except.ok { result with
                      ipv6_can_send := true
                      delay := some delay
                      addr := some addr }, 1)
              else (Except.ok result, 1)
            else (Except.ok result, 0)
          | Probe.https _ _ =>
            let result :=
              match env.pinger with
              | some (IcmpOutcome.ok d) =>
                { result with delay := some d, ipv4_can_send := true, icmpv4 := true }
              | _ => result
            (Except.ok result, 0)

/-- Whether the preferred DERP region can be used directly by
`check_captive_portal` (the negation of the three-way short-circuit in the
source: the preferred id is present, found in the map and its node list is
non-empty). -/
def preferred_usable (dm : DerpMap) (preferred : Option Nat) : Bool :=
  match preferred with
  | none => false
  | some p =>
    match dm.getRegion p with
    | none => false
    | some reg => !reg.nodes.isEmpty

/-- The regions eligible for random captive-portal selection: not `avoid`
and with a non-empty node list (iteration order of the `BTreeMap` is the
key order of the association list). -/
def eligible_regions (dm : DerpMap) : List DerpRegion :=
  (dm.regions.filter (fun p => !p.2.avoid && !p.2.nodes.isEmpty)).map Prod.snd

/-- The region `check_captive_portal` settles on, `none` when no region
qualifies.  The uniform random index drawn from
`(0..rids.len()).choose(..)` is resolved by the oracle parameter
`choice`, reduced modulo the number of eligible regions. -/
def selected_region (dm : DerpMap) (preferred : Option Nat) (choice : Nat) :
    Option DerpRegion :=
  if preferred_usable dm preferred then
    dm.getRegion (preferred.getD 0)
  else
    match eligible_regions dm with
    | [] => none
    | e :: _ => some ((eligible_regions dm).getD (choice % (eligible_regions dm).length) e)

/-- Rust `str::ends_with`, embedded over the characters of the two
strings. -/
def strEndsWith (s suffix : String) : Bool :=
  suffix.data.isSuffixOf s.data

/-- What `check_captive_portal` does before any network I/O: either return
`Ok(result)` early (no HTTP request issued) or proceed to issue the HTTP
GET against the given host (`node.url.host_str().unwrap_or_default()`). -/
inductive CaptivePreflight where
  | early (result : Bool)
  | request (host : String)

deriving instance DecidableEq, Repr for CaptivePreflight

/-- The region/node-selection phase of `check_captive_portal`, up to the
point where the HTTP request is issued. -/
def check_captive_portal_select (dm : DerpMap) (preferred : Option Nat)
    (choice : Nat) : CaptivePreflight :=
  match selected_region dm preferred choice with
  | none => CaptivePreflight.early false
  | some reg =>
    match reg.nodes with
    | [] => CaptivePreflight.early false
    | node :: _ =>
      -- Don't try to connect to invalid hostnames.
      if (node.urlHost.map (fun s => strEndsWith s DOT_INVALID)).getD false then
        CaptivePreflight.early false
      else
        CaptivePreflight.request (node.urlHost.getD "")

/-- The expected captive-portal response header value,
`format!("response {challenge}")` with `challenge = format!("ts_{}",
host_name)`. -/
def expected_response (host : String) : String :=
  "response ts_" ++ host

/-- The response-checking phase of `check_captive_portal`: `status` is the
HTTP status code and `header` the decoded `X-Tailscale-Response` header
value (`none` when the header is absent; a header whose bytes fail
`to_str` decodes to the empty string via `unwrap_or_default`). -/
def has_captive (status : Nat) (header : Option String) (host : String) : Bool :=
  let is_valid_response := header == some (expected_response host)
  !(status == 204) || !is_valid_response

/-- How `prepare_captive_portal_task` surfaces the captive-portal check's
result into the report: a successful check `Ok(found)` becomes
`Some(found)`; an error (or a timeout, not distinguished here) becomes
`None`. -/
def captive_task_surface : Except Unit Bool → Option Bool
  | Except.ok found => some found
  | Except.error _ => none

/-- Claim C4: `probe_would_help` returns `true` iff the report has no
latency entry for the node's region, or the probe is IPv6 and no IPv6
region latency is known, or the probe is IPv4 and
`mapping_varies_by_dest_ip` is still undecided; and handling a
`ProbeWouldHelp` message never modifies the actor state. -/
theorem probe_would_help_spec :
    (∀ (a : Actor) (probe : Probe) (node : DerpNode),
      a.probe_would_help probe node = true ↔
        (a.report.region_latency.get node.regionId = none
          ∨ (probe.proto = ProbeProto.Ipv6 ∧ a.report.region_v6_latency.is_empty = true)
          ∨ (probe.proto = ProbeProto.Ipv4 ∧ a.report.mapping_varies_by_dest_ip = none)))
    ∧ (∀ (a : Actor) (probe : Probe) (node : DerpNode),
      a.handle_message (Message.probeWouldHelp probe node) = a) := by
  constructor
  · intro a probe node
    unfold Actor.probe_would_help
    rcases h1 : a.report.region_latency.get node.regionId with _ | v
    · simp [h1]
    · rcases h3 : a.report.mapping_varies_by_dest_ip with _ | m
      · rcases h2 : a.report.region_v6_latency.is_empty
        · simp [h1, h2, h3, Option.isNone]
        · simp [h1, h2, h3, Option.isNone]
      · rcases h2 : a.report.region_v6_latency.is_empty
        · simp [h1, h2, h3, Option.isNone]
        · simp [h1, h2, h3, Option.isNone]
  · intro a probe node
    rfl

/-- Claim C5: `handle_abort_probes` leaves the report alone, clears the
`probes` flag, clears `captive_task` exactly when `report.udp` holds,
leaves the other outstanding flags alone, and is idempotent. -/
theorem handle_abort_probes_spec : ∀ a : Actor,
    a.handle_abort_probes.report = a.report
    ∧ a.handle_abort_probes.outstanding_tasks.probes = false
    ∧ (a.report.udp = true →
        a.handle_abort_probes.outstanding_tasks.captive_task = false)
    ∧ (a.report.udp = false →
        a.handle_abort_probes.outstanding_tasks.captive_task
          = a.outstanding_tasks.captive_task)
    ∧ a.handle_abort_probes.outstanding_tasks.port_mapper
        = a.outstanding_tasks.port_mapper
    ∧ a.handle_abort_probes.outstanding_tasks.hairpin
        = a.outstanding_tasks.hairpin
    ∧ a.handle_abort_probes.handle_abort_probes = a.handle_abort_probes := by
  intro a
  unfold Actor.handle_abort_probes
  rcases h : a.report.udp <;> simp [h]

/-- Witness for claim C5 at a concrete state: UDP has succeeded and the
captive-portal task is outstanding; aborting probes also cancels the
captive-portal task. -/
theorem handle_abort_probes_spec_witness :
    ({ report := { Report.default with udp := true }
       outstanding_tasks := { OutstandingTasks.default with probes := true, captive_task := true }
       incremental := false
       derp_map := ⟨[]⟩ } : Actor).handle_abort_probes.outstanding_tasks.captive_task
      = false :=
  (handle_abort_probes_spec _).2.2.1 rfl

/-- Claim C8: a captive portal is reported iff the HTTP status is not 204,
or the `X-Tailscale-Response` header is absent or differs from
`response ts_<host>`. -/
theorem has_captive_spec : ∀ (status : Nat) (header : Option String) (host : String),
    has_captive status header host = true ↔
      (status ≠ 204 ∨ header = none
        ∨ ∃ v, header = some v ∧ v ≠ expected_response host) := by
  intro status header host
  unfold has_captive
  rcases header with _ | v
  · simp
  · by_cases hv : v = expected_response host <;> simp [hv]

/-- Claim C1 (amended): `handle_probe_report` overwrites the report's
`ipv4_can_send`, `ipv6_can_send` and `icmpv4` fields with the probe
report's booleans (a plain assignment, not a logical OR). -/
theorem handle_probe_report_assigns_send_flags : ∀ (a : Actor) (pr : ProbeReport),
    (a.handle_probe_report pr).actor.report.ipv4_can_send = pr.ipv4_can_send
    ∧ (a.handle_probe_report pr).actor.report.ipv6_can_send = pr.ipv6_can_send
    ∧ (a.handle_probe_report pr).actor.report.icmpv4 = pr.icmpv4 :=
  fun _ _ => ⟨rfl, rfl, rfl⟩

/-- An actor whose report already has `ipv4_can_send = true`. -/
def actorCanSend : Actor where
  report := { Report.default with ipv4_can_send := true }
  outstanding_tasks := OutstandingTasks.default
  incremental := false
  derp_map := ⟨[]⟩

/-- A probe report with all reachability booleans `false`. -/
def probeReportAllFalse : ProbeReport where
  ipv4_can_send := false
  ipv6_can_send := false
  icmpv4 := false
  delay := none
  probe := Probe.https 0 1
  addr := none

/-- Counterexample to claim C1: folding a probe report with
`ipv4_can_send = false` into a report whose `ipv4_can_send` is already
`true` resets the field to `false`, whereas the OR of the previous value
and the probe report's boolean is `true`; the field is not monotonic. -/
theorem handle_probe_report_not_or_counterexample :
    (actorCanSend.handle_probe_report probeReportAllFalse).actor.report.ipv4_can_send = false
    ∧ (actorCanSend.report.ipv4_can_send || probeReportAllFalse.ipv4_can_send) = true :=
  ⟨rfl, rfl⟩

/-- Claim C6: the probe-set runner yields the first `Ok` report, skips
`Error` results so the remaining probes continue, terminates immediately
on `AbortSet`, and resolves with a final error when every probe failed
with the `Error` variant. -/
theorem probe_set_runner_spec :
    (∀ (rest : List ProbeResult) (r : ProbeReport),
      runProbeSet (ProbeResult.ok r :: rest) = SetOutcome.report r)
    ∧ (∀ rest : List ProbeResult,
      runProbeSet (ProbeResult.error :: rest) = runProbeSet rest)
    ∧ (∀ rest : List ProbeResult,
      runProbeSet (ProbeResult.abortSet :: rest) = SetOutcome.abortErr)
    ∧ (∀ results : List ProbeResult,
      (∀ x ∈ results, x = ProbeResult.error) →
        runProbeSet results = SetOutcome.allFailed)
    ∧ (∀ (pre rest : List ProbeResult) (r : ProbeReport),
      (∀ x ∈ pre, x = ProbeResult.error) →
        runProbeSet (pre ++ ProbeResult.ok r :: rest) = SetOutcome.report r) := by
  refine ⟨fun _ _ => rfl, fun _ => rfl, fun _ => rfl, ?_, ?_⟩
  · intro results h
    induction results with
    | nil => rfl
    | cons x rest ih =>
      have hx : x = ProbeResult.error := h x (List.mem_cons_self x rest)
      subst hx
      have : runProbeSet (ProbeResult.error :: rest) = runProbeSet rest := rfl
      rw [this]
      exact ih (fun y hy => h y (List.mem_cons_of_mem _ hy))
  · intro pre rest r h
    induction pre with
    | nil => rfl
    | cons x pre ih =>
      have hx : x = ProbeResult.error := h x (List.mem_cons_self x pre)
      subst hx
      have : runProbeSet (ProbeResult.error :: (pre ++ ProbeResult.ok r :: rest))
          = runProbeSet (pre ++ ProbeResult.ok r :: rest) := rfl
      rw [List.cons_append, this]
      exact ih (fun y hy => h y (List.mem_cons_of_mem _ hy))

/-- Witness for claim C6 at concrete inputs: a set whose probes all fail
with the `Error` variant resolves with the final error, and a set with two
leading `Error` results resolves with the report of its first successful
probe. -/
theorem probe_set_runner_spec_witness :
    runProbeSet [ProbeResult.error, ProbeResult.error] = SetOutcome.allFailed
    ∧ runProbeSet
        [ProbeResult.error, ProbeResult.error,
         ProbeResult.ok (ProbeReport.new (Probe.ipv4 0 "a"))]
      = SetOutcome.report (ProbeReport.new (Probe.ipv4 0 "a")) :=
  ⟨probe_set_runner_spec.2.2.2.1 [ProbeResult.error, ProbeResult.error] (by decide),
   probe_set_runner_spec.2.2.2.2 [ProbeResult.error, ProbeResult.error] []
     (ProbeReport.new (Probe.ipv4 0 "a")) (by decide)⟩

/-- Helper: the V4 decision chain never clears or replaces an already
discovered `global_v4`, sets it when unset, and never downgrades
`mapping_varies_by_dest_ip` from `some true`; a differing later address
marks the mapping as varying, an equal later address decides an undecided
mapping as not varying. -/
theorem v4_global_update_cases (r : Report) (addr : SocketAddr) :
    (∀ w, r.global_v4 = some w → (v4_global_update r addr).global_v4 = some w)
    ∧ (r.global_v4 = none → (v4_global_update r addr).global_v4 = some addr)
    ∧ (r.mapping_varies_by_dest_ip = some true →
        (v4_global_update r addr).mapping_varies_by_dest_ip = some true)
    ∧ (∀ w, r.global_v4 = some w → w ≠ addr →
        (v4_global_update r addr).mapping_varies_by_dest_ip = some true)
    ∧ (r.global_v4 = some addr → r.mapping_varies_by_dest_ip = none →
        (v4_global_update r addr).mapping_varies_by_dest_ip = some false) := by
  unfold v4_global_update
  rcases hg : r.global_v4 with _ | w0
  · rcases hm : r.mapping_varies_by_dest_ip with _ | m <;> simp [hg, hm]
  · rcases hm : r.mapping_varies_by_dest_ip with _ | m
    · by_cases he : w0 = addr <;> simp [hg, hm, he]
    · by_cases he : w0 = addr <;> rcases m <;> simp [hg, hm, he]

/-- Helper: `add_stun_addr_latency` never clears or replaces an already
discovered `global_v4`, and never downgrades `mapping_varies_by_dest_ip`
from `some true`. -/
theorem add_stun_preserves (a : Actor) (s : String) (ipp : Option SocketAddr) (l : Nat) :
    (∀ w, a.report.global_v4 = some w →
      ((a.add_stun_addr_latency s ipp l).1).report.global_v4 = some w)
    ∧ (a.report.mapping_varies_by_dest_ip = some true →
      ((a.add_stun_addr_latency s ipp l).1).report.mapping_varies_by_dest_ip = some true) := by
  rcases hf : a.derp_map.find_by_name s with _ | node
  · simp [Actor.add_stun_addr_latency, hf]
  · rcases ipp with _ | addr
    · simp [Actor.add_stun_addr_latency, hf]
    · rcases addr with ⟨ip, port⟩ | ⟨ip, port⟩
      · constructor
        · intro w hw
          simp only [Actor.add_stun_addr_latency, hf]
          exact (v4_global_update_cases _ _).1 w hw
        · intro hm
          simp only [Actor.add_stun_addr_latency, hf]
          exact (v4_global_update_cases _ _).2.2.1 hm
      · constructor
        · intro w hw
          simp [Actor.add_stun_addr_latency, hf, hw]
        · intro hm
          simp [Actor.add_stun_addr_latency, hf, hm]

/-- Helper: no state-mutating operation of the actor's select loop clears
or replaces an already discovered `global_v4`, and none downgrades
`mapping_varies_by_dest_ip` once it is `some true`. -/
theorem step_preserves (b : Actor) (op : ActorOp) :
    (∀ w, b.report.global_v4 = some w → (b.step op).report.global_v4 = some w)
    ∧ (b.report.mapping_varies_by_dest_ip = some true →
      (b.step op).report.mapping_varies_by_dest_ip = some true) := by
  cases op with
  | probeReport pr =>
    obtain ⟨c4, c6, ci, dly, prb, paddr⟩ := pr
    unfold Actor.step Actor.handle_probe_report
    rcases prb with ⟨d, node⟩ | ⟨d, node⟩ | ⟨d, regionId⟩ <;>
      rcases dly with _ | delay <;>
      try simp
    · constructor
      · intro w hw
        have h1 := (add_stun_preserves b node paddr delay).1 w hw
        rcases hg : ((b.add_stun_addr_latency node paddr delay).1).report.global_v4 with _ | v
        · rw [hg] at h1; exact absurd h1 (by simp)
        · simp [hg]
          rw [hg] at h1
          exact Option.some.inj h1
      · intro hm
        have h1 := (add_stun_preserves b node paddr delay).2 hm
        rcases hg : ((b.add_stun_addr_latency node paddr delay).1).report.global_v4 with _ | v <;>
          simp [hg, h1]
    · constructor
      · intro w hw
        have h1 := (add_stun_preserves b node paddr delay).1 w hw
        rcases hg : ((b.add_stun_addr_latency node paddr delay).1).report.global_v4 with _ | v
        · rw [hg] at h1; exact absurd h1 (by simp)
        · simp [hg]
          rw [hg] at h1
          exact Option.some.inj h1
      · intro hm
        have h1 := (add_stun_preserves b node paddr delay).2 hm
        rcases hg : ((b.add_stun_addr_latency node paddr delay).1).report.global_v4 with _ | v <;>
          simp [hg, h1]
  | probeSetFailed => exact ⟨fun w hw => hw, fun hm => hm⟩
  | probesExhausted =>
    unfold Actor.step Actor.handle_abort_probes
    rcases h : b.report.udp <;> simp [h]
  | probeTimer =>
    unfold Actor.step Actor.handle_abort_probes
    rcases h : b.report.udp <;> simp [h]
  | portMapperDone res => exact ⟨fun w hw => hw, fun hm => hm⟩
  | captiveDone res => exact ⟨fun w hw => hw, fun hm => hm⟩
  | msg m =>
    cases m with
    | hairpinResult works => exact ⟨fun w hw => hw, fun hm => hm⟩
    | probeWouldHelp probe node => exact ⟨fun w hw => hw, fun hm => hm⟩
    | abortProbes =>
      unfold Actor.step Actor.handle_message Actor.handle_abort_probes
      rcases h : b.report.udp <;> simp [h]

/-- Claim C2: for an IPv4 STUN observation with a present address and a
node found in the relay map, `add_stun_addr_latency` sets `global_v4` when
it was unset and never overwrites it once set; a differing later address
sets `mapping_varies_by_dest_ip = some true`; an equal later address
decides an undecided mapping as `some false`; and no state-mutating
operation of the actor ever changes `mapping_varies_by_dest_ip` away from
`some true` (nor replaces a set `global_v4`). -/
theorem add_stun_global_v4_spec :
    (∀ (a : Actor) (s : String) (node : DerpNode) (ip port l : Nat),
      a.derp_map.find_by_name s = some node →
      ((a.report.global_v4 = none →
          ((a.add_stun_addr_latency s (some (SocketAddr.v4 ip port)) l).1).report.global_v4
            = some (SocketAddr.v4 ip port))
        ∧ (∀ w, a.report.global_v4 = some w →
          ((a.add_stun_addr_latency s (some (SocketAddr.v4 ip port)) l).1).report.global_v4
            = some w)
        ∧ (∀ w, a.report.global_v4 = some w → w ≠ SocketAddr.v4 ip port →
          ((a.add_stun_addr_latency s (some (SocketAddr.v4 ip port)) l).1).report.mapping_varies_by_dest_ip
            = some true)
        ∧ (a.report.global_v4 = some (SocketAddr.v4 ip port) →
          a.report.mapping_varies_by_dest_ip = none →
          ((a.add_stun_addr_latency s (some (SocketAddr.v4 ip port)) l).1).report.mapping_varies_by_dest_ip
            = some false)))
    ∧ (∀ (b : Actor) (op : ActorOp) (w : SocketAddr),
      b.report.global_v4 = some w → (b.step op).report.global_v4 = some w)
    ∧ (∀ (b : Actor) (op : ActorOp),
      b.report.mapping_varies_by_dest_ip = some true →
        (b.step op).report.mapping_varies_by_dest_ip = some true) := by
  refine ⟨?_, fun b op w => (step_preserves b op).1 w, fun b op => (step_preserves b op).2⟩
  intro a s node ip port l hf
  refine ⟨?_, ?_, ?_, ?_⟩
  · intro hg
    simp only [Actor.add_stun_addr_latency, hf]
    exact (v4_global_update_cases _ _).2.1 hg
  · intro w hw
    simp only [Actor.add_stun_addr_latency, hf]
    exact (v4_global_update_cases _ _).1 w hw
  · intro w hw hne
    simp only [Actor.add_stun_addr_latency, hf]
    exact (v4_global_update_cases _ _).2.2.2.1 w hw hne
  · intro hg hm
    simp only [Actor.add_stun_addr_latency, hf]
    exact (v4_global_update_cases _ _).2.2.2.2 hg hm

/-- A relay map with one node per region for regions 1, 2 and 3. -/
def dmThree : DerpMap where
  regions :=
    [(1, { regionId := 1, avoid := false, nodes := [{ name := "a", regionId := 1, urlHost := none }] }),
     (2, { regionId := 2, avoid := false, nodes := [{ name := "b", regionId := 2, urlHost := none }] }),
     (3, { regionId := 3, avoid := false, nodes := [{ name := "c", regionId := 3, urlHost := none }] })]

/-- A fresh actor over `dmThree` doing an incremental report. -/
def actorThree : Actor where
  report := Report.default
  outstanding_tasks := OutstandingTasks.default
  incremental := true
  derp_map := dmThree

/-- Witness for claim C2 at concrete inputs: a first IPv4 observation sets
`global_v4`; after `mapping_varies_by_dest_ip` is `some true` it survives
a further probe-report step. -/
theorem add_stun_global_v4_spec_witness :
    ((actorThree.add_stun_addr_latency "a" (some (SocketAddr.v4 7 1)) 10).1).report.global_v4
      = some (SocketAddr.v4 7 1)
    ∧ ({ actorThree with
          report := { actorThree.report with mapping_varies_by_dest_ip := some true } }.step
        (ActorOp.probeReport probeReportAllFalse)).report.mapping_varies_by_dest_ip
      = some true :=
  ⟨(add_stun_global_v4_spec.1 actorThree "a" { name := "a", regionId := 1, urlHost := none }
      7 1 10 (by decide)).1 rfl,
   add_stun_global_v4_spec.2.2 _ (ActorOp.probeReport probeReportAllFalse) rfl⟩

/-- Claim C3 (amended): when the node is found in the relay map,
`add_stun_addr_latency` spawns an abort-probes timer exactly when, after
folding this latency, `region_latency` has exactly `ENOUGH_REGIONS = 3`
entries (which can recur on later observations for an already-known
region); the timer's duration is the maximum latency across the known
regions, doubled iff the report is full (non-incremental). -/
theorem add_stun_timer_spec :
    ∀ (a : Actor) (s : String) (node : DerpNode) (ipp : Option SocketAddr) (l : Nat),
    a.derp_map.find_by_name s = some node →
    (((a.add_stun_addr_latency s ipp l).2).isSome = true ↔
        (a.report.region_latency.update_region node.regionId l).len = ENOUGH_REGIONS)
    ∧ (∀ d, (a.add_stun_addr_latency s ipp l).2 = some d →
        d = (if a.incremental
             then (a.report.region_latency.update_region node.regionId l).max_latency
             else (a.report.region_latency.update_region node.regionId l).max_latency * 2)) := by
  intro a s node ipp l hf
  simp only [Actor.add_stun_addr_latency, hf]
  by_cases hc :
      (a.report.region_latency.update_region node.regionId l).len = ENOUGH_REGIONS <;>
    simp [hc]

/-- The actor after the first two STUN latencies (regions 1 and 2). -/
def actorTwoRegions : Actor :=
  ((actorThree.add_stun_addr_latency "a" none 10).1.add_stun_addr_latency "b" none 20).1

/-- The third STUN fold: the report now knows 3 regions. -/
def thirdFold : Actor × Option Nat :=
  actorTwoRegions.add_stun_addr_latency "c" none 30

/-- A fourth STUN fold for the already-known region 1. -/
def fourthFold : Actor × Option Nat :=
  thirdFold.1.add_stun_addr_latency "a" none 5

/-- Counterexample to claim C3 as stated: the third fold arms a timer when
`region_latency` reaches 3 entries, but a fourth fold for an
already-known region leaves the length at 3 and arms a second timer, so
more than one abort timer can be armed per report. -/
theorem add_stun_timer_counterexample :
    thirdFold.2.isSome = true
    ∧ thirdFold.1.report.region_latency.len = ENOUGH_REGIONS
    ∧ fourthFold.1.report.region_latency.len = ENOUGH_REGIONS
    ∧ fourthFold.2.isSome = true := by
  decide

/-- Witness for claim C3 (amended) at the concrete third fold: applying
the theorem at `actorTwoRegions` confirms the timer and its duration
(30, the slowest of the three known regions, not doubled since the report
is incremental). -/
theorem add_stun_timer_spec_witness :
    thirdFold.2.isSome = true ∧ (∀ d, thirdFold.2 = some d → d = 30) := by
  have h := add_stun_timer_spec actorTwoRegions "c"
    { name := "c", regionId := 3, urlHost := none } none 30 (by decide)
  constructor
  · exact h.1.mpr (by decide)
  · intro d hd
    have := h.2 d hd
    rw [this]
    decide

/-- Claim C10: whenever `handle_probe_report` processes an IPv4 or IPv6
STUN probe report with a present delay and `global_v4` is set after the
fold, it invokes the hairpin actor's `start_check` with that address and
sets the `hairpin` outstanding flag — from any prior state, including
after a `HairpinResult` message has cleared the flag. -/
theorem handle_probe_report_hairpin_spec :
    ∀ (a : Actor) (pr : ProbeReport) (d : Nat),
    (pr.probe.proto = ProbeProto.Ipv4 ∨ pr.probe.proto = ProbeProto.Ipv6) →
    pr.delay = some d →
    ((a.handle_probe_report pr).actor.report.global_v4).isSome = true →
    (a.handle_probe_report pr).hairpinCheck = (a.handle_probe_report pr).actor.report.global_v4
    ∧ (a.handle_probe_report pr).actor.outstanding_tasks.hairpin = true := by
  intro a pr d hproto hdelay
  obtain ⟨c4, c6, ci, dly, prb, paddr⟩ := pr
  rcases prb with ⟨pd, node⟩ | ⟨pd, node⟩ | ⟨pd, rid⟩
  · have hdly : dly = some d := hdelay
    subst hdly
    unfold Actor.handle_probe_report
    rcases hg : ((a.add_stun_addr_latency node paddr d).1).report.global_v4 with _ | v
    · intro hsome
      exfalso
      simp [hg] at hsome
    · intro _
      simp [hg]
  · have hdly : dly = some d := hdelay
    subst hdly
    unfold Actor.handle_probe_report
    rcases hg : ((a.add_stun_addr_latency node paddr d).1).report.global_v4 with _ | v
    · intro hsome
      exfalso
      simp [hg] at hsome
    · intro _
      simp [hg]
  · exfalso
    rcases hproto with h | h <;> simp [Probe.proto] at h

/-- An IPv4 STUN probe report for node `"a"` observing address `7:1`. -/
def probeReportV4A : ProbeReport where
  ipv4_can_send := true
  ipv6_can_send := false
  icmpv4 := false
  delay := some 10
  probe := Probe.ipv4 0 "a"
  addr := some (SocketAddr.v4 7 1)

/-- An IPv4 STUN probe report for node `"b"` observing address `7:1`. -/
def probeReportV4B : ProbeReport where
  ipv4_can_send := true
  ipv6_can_send := false
  icmpv4 := false
  delay := some 20
  probe := Probe.ipv4 0 "b"
  addr := some (SocketAddr.v4 7 1)

/-- The actor after a first IPv4 STUN report (hairpin check started) and a
`HairpinResult` message (hairpin flag cleared again). -/
def actorAfterHairpinResult : Actor :=
  ((actorThree.handle_probe_report probeReportV4A).actor).handle_message
    (Message.hairpinResult true)

/-- Witness for claim C10 at a concrete state: after the hairpin flag was
already cleared by a `HairpinResult` message, a later IPv4 STUN report
invokes `start_check` again and re-sets the flag. -/
theorem handle_probe_report_hairpin_spec_witness :
    actorAfterHairpinResult.outstanding_tasks.hairpin = false
    ∧ (actorAfterHairpinResult.handle_probe_report probeReportV4B).hairpinCheck
        = (actorAfterHairpinResult.handle_probe_report probeReportV4B).actor.report.global_v4
    ∧ (actorAfterHairpinResult.handle_probe_report probeReportV4B).actor.outstanding_tasks.hairpin
        = true :=
  ⟨by decide,
   (handle_probe_report_hairpin_spec actorAfterHairpinResult probeReportV4B 20
      (Or.inl rfl) rfl (by decide)).1,
   (handle_probe_report_hairpin_spec actorAfterHairpinResult probeReportV4B 20
      (Or.inl rfl) rfl (by decide)).2⟩

/-- Claim C7: `run_probe` fails the whole set (`AbortSet`) when the
`ProbeWouldHelp` query cannot be sent, its reply channel fails, the reply
is `false`, or the node has no transport address for the probe's protocol
family; it fails recoverably (`Error`) when registering the in-flight STUN
transaction or awaiting its acknowledgement fails; in every such case it
returns with zero STUN packets sent. -/
theorem run_probe_error_spec : ∀ (env : RunProbeEnv) (probe : Probe),
    ((env.wouldHelpSendOk = false ∨ env.wouldHelpReply = none
        ∨ env.wouldHelpReply = some false ∨ env.derpAddr = none) →
      run_probe env probe = (Except.error ProbeErrKind.abortSet, 0))
    ∧ ((env.wouldHelpSendOk = true ∧ env.wouldHelpReply = some true
        ∧ env.derpAddr.isSome = true
        ∧ (env.inflightSendOk = false ∨ env.inflightReadyOk = false)) →
      run_probe env probe = (Except.error ProbeErrKind.error, 0)) := by
  intro env probe
  constructor
  · intro h
    rcases hs : env.wouldHelpSendOk
    · simp [run_probe, hs]
    · rcases hr : env.wouldHelpReply with _ | b
      · simp [run_probe, hs, hr]
      · rcases b
        · simp [run_probe, hs, hr]
        · rcases hd : env.derpAddr with _ | addr
          · simp [run_probe, hs, hr, hd]
          · exfalso
            rcases h with h | h | h | h <;> simp_all
  · rintro ⟨h1, h2, h3, h4⟩
    rcases hd : env.derpAddr with _ | addr
    · rw [hd] at h3; exact absurd h3 (by simp)
    · rcases h4 with h4 | h4
      · simp [run_probe, h1, h2, hd, h4]
      · rcases hi : env.inflightSendOk <;>
          simp [run_probe, h1, h2, hd, h4, hi]

/-- An environment in which the `ProbeWouldHelp` reply is `false`. -/
def envNotUseful : RunProbeEnv where
  wouldHelpSendOk := true
  wouldHelpReply := some false
  derpAddr := some (SocketAddr.v4 9 9)
  inflightSendOk := true
  inflightReadyOk := true
  sock4 := true
  sock6 := true
  sendOk := true
  stunReply := none
  pinger := none

/-- An environment in which registering the in-flight STUN transaction
fails. -/
def envInflightFails : RunProbeEnv where
  wouldHelpSendOk := true
  wouldHelpReply := some true
  derpAddr := some (SocketAddr.v4 9 9)
  inflightSendOk := false
  inflightReadyOk := true
  sock4 := true
  sock6 := true
  sendOk := true
  stunReply := none
  pinger := none

/-- Witness for claim C7 at concrete environments: a `false`
`ProbeWouldHelp` reply aborts the set, and a failed in-flight registration
is a recoverable error; both send no STUN packet. -/
theorem run_probe_error_spec_witness :
    run_probe envNotUseful (Probe.ipv4 0 "a")
      = (Except.error ProbeErrKind.abortSet, 0)
    ∧ run_probe envInflightFails (Probe.ipv4 0 "a")
      = (Except.error ProbeErrKind.error, 0) :=
  ⟨(run_probe_error_spec envNotUseful (Probe.ipv4 0 "a")).1
      (Or.inr (Or.inr (Or.inl rfl))),
   (run_probe_error_spec envInflightFails (Probe.ipv4 0 "a")).2
      ⟨rfl, rfl, rfl, Or.inl rfl⟩⟩

/-- Helper: when every region is to be avoided or has no nodes, the
eligible-region list for captive-portal selection is empty. -/
theorem eligible_regions_nil (dm : DerpMap)
    (h : ∀ p ∈ dm.regions, p.2.avoid = true ∨ p.2.nodes = []) :
    eligible_regions dm = [] := by
  unfold eligible_regions
  have hf : dm.regions.filter (fun p => !p.2.avoid && !p.2.nodes.isEmpty) = [] := by
    rw [List.filter_eq_nil_iff]
    intro p hp
    rcases h p hp with h1 | h1 <;> simp [h1]
  rw [hf]
  rfl

/-- Claim C9: `check_captive_portal` resolves with `false` before any HTTP
request when no region qualifies (preferred region unusable and every
region avoided or empty), and when the selected region's first node has a
URL host ending in `.invalid`; the captive-portal task surfaces such an
`Ok(false)` to the report as `Some(false)`. -/
theorem check_captive_portal_early_spec :
    (∀ (dm : DerpMap) (pref : Option Nat) (choice : Nat),
      preferred_usable dm pref = false →
      (∀ p ∈ dm.regions, p.2.avoid = true ∨ p.2.nodes = []) →
      check_captive_portal_select dm pref choice = CaptivePreflight.early false)
    ∧ (∀ (dm : DerpMap) (pref : Option Nat) (choice : Nat) (reg : DerpRegion)
        (node : DerpNode) (tail : List DerpNode),
      selected_region dm pref choice = some reg →
      reg.nodes = node :: tail →
      (node.urlHost.map (fun s => strEndsWith s DOT_INVALID)).getD false = true →
      check_captive_portal_select dm pref choice = CaptivePreflight.early false)
    ∧ captive_task_surface (Except.ok false) = some false := by
  refine ⟨?_, ?_, rfl⟩
  · intro dm pref choice hpref hall
    have hsel : selected_region dm pref choice = none := by
      unfold selected_region
      rw [hpref]
      simp only [Bool.false_eq_true, if_false]
      rw [eligible_regions_nil dm hall]
    simp [check_captive_portal_select, hsel]
  · intro dm pref choice reg node tail hsel hnodes hinv
    simp [check_captive_portal_select, hsel, hnodes, hinv]

/-- A relay map whose only region is avoided (besides one with no nodes),
and pointing at no usable preferred region. -/
def dmAllAvoided : DerpMap where
  regions :=
    [(1, { regionId := 1, avoid := true,
           nodes := [{ name := "a", regionId := 1, urlHost := some "a.example.com" }] }),
     (2, { regionId := 2, avoid := false, nodes := [] })]

/-- A relay map whose only usable region's first node has a `.invalid`
URL host. -/
def dmInvalidHost : DerpMap where
  regions :=
    [(1, { regionId := 1, avoid := false,
           nodes := [{ name := "a", regionId := 1, urlHost := some "a.test.invalid" }] })]

/-- Witness for claim C9 at concrete relay maps: with every region avoided
or empty the check resolves with `false` before any request, and so does a
selected region whose first node's host ends in `.invalid`. -/
theorem check_captive_portal_early_spec_witness :
    check_captive_portal_select dmAllAvoided none 0 = CaptivePreflight.early false
    ∧ check_captive_portal_select dmInvalidHost none 0 = CaptivePreflight.early false :=
  ⟨check_captive_portal_early_spec.1 dmAllAvoided none 0 rfl (by decide),
   check_captive_portal_early_spec.2.1 dmInvalidHost none 0
      { regionId := 1, avoid := false,
        nodes := [{ name := "a", regionId := 1, urlHost := some "a.test.invalid" }] }
      { name := "a", regionId := 1, urlHost := some "a.test.invalid" } []
      (by decide) rfl (by decide)⟩

end Iroh
